import Mathlib

/-!
Verification of the CV-processing API (`src/main.py`).

The pipeline has three functions:
- `pdf_to_text_or_ocr` — extract a PDF's native text layer with pdfplumber;
  if the stripped result is empty, run a per-page OCR loop (PyMuPDF render +
  vision-model call) and append each page's answer; return the stripped text.
- `get_json_from_openai` — call the classification model; return its raw
  string answer, or the dict `{"error": "openai_failed", "raw_response": ""}`
  when the call raises.
- `procesar_cv` — the HTTP endpoint: save the upload to a temporary file,
  extract, classify, remove the temporary file, then parse the answer as JSON
  (falling back to `{"raw_response": ...}`), with a top-level handler turning
  any escaping exception into a 500 response.

External collaborators (pdfplumber, PyMuPDF, the OpenAI client, the stdlib
JSON parser, the upload stream) are modelled as environment data: each
fallible call site is a field recording that call's outcome, and exceptions
they raise are explicit failure constructors.  Machine strings are Lean
`String`s; Python `str.strip()` is modelled on the ASCII whitespace set.
-/

/-- Python whitespace for `str.strip()` (ASCII subset: space, tab, LF, CR,
vertical tab, form feed). -/
def isPySpace (c : Char) : Bool :=
  c == ' ' || c == '\t' || c == '\n' || c == '\r' || c == '\x0b' || c == '\x0c'

/-- Python `str.strip()` on the character list: drop leading and trailing whitespace. -/
def pystripL (l : List Char) : List Char :=
  ((l.dropWhile isPySpace).reverse.dropWhile isPySpace).reverse

/-- Python `str.strip()`. -/
def pystrip (s : String) : String := ⟨pystripL s.data⟩

/-- Outcome of one page of the OCR loop (main.py lines 42-66): an exception
before the model call (`page.get_pixmap()`, `tobytes`, base64), an exception
from the model call or from reading its response, or a completed call whose
`message.content` is `None` or a string. -/
inductive OcrPageOutcome where
  | renderFail
  | callFail
  | content (t : Option String)
deriving DecidableEq, Repr

/-- Environment of one `pdf_to_text_or_ocr` run: the outcomes of every
collaborator call it makes.  `open_ok` is whether `pdfplumber.open` succeeds;
`pages` holds, per page pdfplumber yields, either an exception from
`page.extract_text()` (`Except.error`) or its `Optional[str]` result;
`fitz_ok` is whether `fitz.open` succeeds; `ocrPages` holds one
`OcrPageOutcome` per page of the PyMuPDF document. -/
structure PdfDoc where
  open_ok : Bool
  pages : List (Except Unit (Option String))
  fitz_ok : Bool
  ocrPages : List OcrPageOutcome
deriving Repr

/-- One iteration of the pdfplumber loop (lines 27-33): append
`page_text + "\n"` when `page_text` is truthy (a non-empty string); a `None`
result, an empty string, or a caught exception appends nothing. -/
def tlStep (acc : String) (r : Except Unit (Option String)) : String :=
  match r with
  | .ok (some t) => if t = "" then acc else acc ++ t ++ "\n"
  | _ => acc

/-- The text accumulated by the pdfplumber loop (lines 24-35): empty if the
document cannot be opened. -/
def textLayer (d : PdfDoc) : String :=
  if d.open_ok then d.pages.foldl tlStep "" else ""

/-- One iteration of the OCR loop (lines 41-66), also counting invocations of
the vision model: a render failure skips the call; a call that raises or
returns `None`/empty content appends nothing; truthy content appends
`page_text + "\n"`. -/
def ocrStep (acc : String × Nat) (r : OcrPageOutcome) : String × Nat :=
  match r with
  | .renderFail => acc
  | .callFail => (acc.1, acc.2 + 1)
  | .content none => (acc.1, acc.2 + 1)
  | .content (some t) => (if t = "" then acc.1 else acc.1 ++ t ++ "\n", acc.2 + 1)

/-- The source's `pdf_to_text_or_ocr` (lines 23-70) instrumented with the number of
vision-model calls made: build the text layer; if its stripped form is empty,
run the OCR loop starting from the accumulated `text`; return the stripped
text. -/
def pdf_extract (d : PdfDoc) : String × Nat :=
  let text := textLayer d
  if pystrip text = "" then
    if d.fitz_ok then
      let r := d.ocrPages.foldl ocrStep (text, 0)
      (pystrip r.1, r.2)
    else (pystrip text, 0)
  else (pystrip text, 0)

/-- The source's `pdf_to_text_or_ocr` (lines 23-70): the string the source returns. -/
def pdf_to_text_or_ocr (d : PdfDoc) : String := (pdf_extract d).1

/-- The text one OCR page contributes to the accumulated string. -/
def segText (r : OcrPageOutcome) : String :=
  match r with
  | .content (some t) => if t = "" then "" else t ++ "\n"
  | _ => ""

/-- Concatenation of a list of strings (left to right). -/
def joinAll (l : List String) : String := l.foldr (· ++ ·) ""

/-- Number of vision-model invocations the OCR loop makes on these pages:
one per page except pages that fail before the call. -/
def ocrCalls : List OcrPageOutcome → Nat
  | [] => 0
  | .renderFail :: l => ocrCalls l
  | _ :: l => ocrCalls l + 1

/-! ## The classifier and the endpoint -/

/-- JSON values, as delivered by `json.loads` / `JSONResponse` (numbers
restricted to integers; no claim depends on fractional numbers). -/
inductive Json where
  | null
  | bool (b : Bool)
  | num (n : Int)
  | str (s : String)
  | arr (xs : List Json)
  | obj (fields : List (String × Json))

/-- The dict literal `{"error": "openai_failed", "raw_response": ""}`
returned by `get_json_from_openai` when the model call raises (line 153). -/
def openaiErrObj : Json :=
  Json.obj [("error", Json.str "openai_failed"), ("raw_response", Json.str "")]

/-- The source's `get_json_from_openai` (lines 74-153): the prompt build cannot fail; the
`openai.chat.completions.create` call either returns the answer string
(`call = .ok s`, the function returns the string) or raises
(`call = .error ()`, the function returns the error dict).  The value is
either a `str` or a `dict`, reflected as a sum. -/
def get_json_from_openai (call : Except Unit String) : String ⊕ Json :=
  match call with
  | .ok s => Sum.inl s
  | .error _ => Sum.inr openaiErrObj

/-- Environment of one `procesar_cv` request.  `readExc`: if `some e`, the
body of the outer `try` raises with message `e` while saving the upload —
after `open(temp_path, "wb")` has created the file but before extraction
(i.e. `await file.read()` or `f.write` raises).  `doc` is the saved PDF as
seen by the extraction collaborators.  `classifyCall` is the outcome of the
classification-model call.  `jsonParse` is the behavior of the stdlib
`json.loads` on this run: `some j` when the string parses to `j`, `none` when
it raises. -/
structure Env where
  readExc : Option String
  doc : PdfDoc
  classifyCall : Except Unit String
  jsonParse : String → Option Json

/-- An HTTP response: JSON body plus status code (`JSONResponse` defaults to
status 200; the top-level handler passes 500). -/
structure Response where
  body : Json
  status : Nat

/-- The endpoint `procesar_cv` (lines 160-186).  Returns the response together with a
flag: `true` iff the temporary file is still on disk when the request ends.
The source removes the file (line 175) only after extraction and
classification return; an exception while saving the upload is caught by the
top-level handler (line 185) without reaching `os.remove`. -/
def procesar_cv (env : Env) : Response × Bool :=
  match env.readExc with
  | some e => ({ body := Json.obj [("error", Json.str e)], status := 500 }, true)
  | none =>
    let _text := pdf_to_text_or_ocr env.doc
    let result := get_json_from_openai env.classifyCall
    match result with
    | Sum.inl s =>
      match env.jsonParse s with
      | some j => ({ body := j, status := 200 }, false)
      | none => ({ body := Json.obj [("raw_response", Json.str s)], status := 200 }, false)
    | Sum.inr j => ({ body := j, status := 200 }, false)

/-! ## Helper lemmas: strings, joins, stripping -/

theorem String.mk_append (l1 l2 : List Char) :
    (⟨l1⟩ : String) ++ ⟨l2⟩ = ⟨l1 ++ l2⟩ := rfl

theorem sapp_assoc (a b c : String) : a ++ b ++ c = a ++ (b ++ c) := by
  cases a; cases b; cases c
  simp [String.mk_append]

theorem sapp_empty (a : String) : a ++ "" = a := by
  cases a
  show String.mk _ = _
  simp

theorem empty_sapp (a : String) : "" ++ a = a := rfl

theorem joinAll_cons (a : String) (l : List String) :
    joinAll (a :: l) = a ++ joinAll l := rfl

theorem joinAll_append (l1 l2 : List String) :
    joinAll (l1 ++ l2) = joinAll l1 ++ joinAll l2 := by
  induction l1 with
  | nil => simp [joinAll]
  | cons a l ih =>
    simp only [List.cons_append, joinAll_cons, ih, sapp_assoc]

theorem dropWhile_head_false {α : Type} (p : α → Bool) :
    ∀ (l : List α) (c : α) (t : List α), l.dropWhile p = c :: t → p c = false := by
  intro l
  induction l with
  | nil => intro c t h; simp [List.dropWhile] at h
  | cons a l ih =>
    intro c t h
    rw [List.dropWhile_cons] at h
    by_cases ha : p a
    · rw [if_pos ha] at h; exact ih c t h
    · rw [if_neg ha] at h
      cases h
      exact Bool.of_not_eq_true ha

theorem pystripL_nil {l : List Char} (h : pystripL l = []) :
    ∀ c ∈ l, isPySpace c := by
  unfold pystripL at h
  rw [List.reverse_eq_nil_iff] at h
  rcases hd : l.dropWhile isPySpace with _ | ⟨c, t⟩
  · exact List.dropWhile_eq_nil_iff.mp hd
  · exfalso
    have hc : isPySpace c = false := dropWhile_head_false isPySpace l c t hd
    have hmem : c ∈ (l.dropWhile isPySpace).reverse := by
      rw [hd]; simp
    have hall := List.dropWhile_eq_nil_iff.mp h
    have := hall c hmem
    rw [hc] at this
    exact Bool.false_ne_true this

theorem dropWhile_append_all {α : Type} (p : α → Bool) (w x : List α)
    (h : ∀ c ∈ w, p c) : List.dropWhile p (w ++ x) = List.dropWhile p x := by
  induction w with
  | nil => rfl
  | cons a w ih =>
    rw [List.cons_append, List.dropWhile_cons, if_pos (h a (by simp))]
    exact ih (fun c hc => h c (by simp [hc]))

theorem pystrip_empty_iff_dataNil (s : String) :
    pystrip s = "" ↔ pystripL s.data = [] := by
  constructor
  · intro h
    have : (pystrip s).data = [] := by rw [h]
    simpa [pystrip] using this
  · intro h
    show (⟨pystripL s.data⟩ : String) = ""
    rw [h]

/-- When the left operand strips to the empty string (it is all whitespace),
stripping the concatenation equals stripping the right operand. -/
theorem pystrip_append_left (w x : String) (h : pystrip w = "") :
    pystrip (w ++ x) = pystrip x := by
  have hall : ∀ c ∈ w.data, isPySpace c :=
    pystripL_nil ((pystrip_empty_iff_dataNil w).mp h)
  show (⟨pystripL (w ++ x).data⟩ : String) = ⟨pystripL x.data⟩
  have hdata : (w ++ x).data = w.data ++ x.data := String.data_append w x
  rw [hdata]
  unfold pystripL
  rw [dropWhile_append_all isPySpace w.data x.data hall]

/-! ## Helper lemmas: the two extraction loops -/

theorem foldl_ocrStep_text (l : List OcrPageOutcome) :
    ∀ b c, (l.foldl ocrStep (b, c)).1 = b ++ joinAll (l.map segText) := by
  induction l with
  | nil => intro b c; simp [joinAll, sapp_empty]
  | cons r l ih =>
    intro b c
    cases r with
    | renderFail => simp [ocrStep, ih, segText, joinAll_cons, empty_sapp]
    | callFail => simp [ocrStep, ih, segText, joinAll_cons, empty_sapp]
    | content t =>
      cases t with
      | none => simp [ocrStep, ih, segText, joinAll_cons, empty_sapp]
      | some s =>
        by_cases hs : s = ""
        · simp [ocrStep, hs, ih, segText, joinAll_cons, empty_sapp]
        · simp only [ocrStep, if_neg hs, List.foldl_cons, List.map_cons, segText,
            joinAll_cons, ih, sapp_assoc]

theorem foldl_ocrStep_count (l : List OcrPageOutcome) :
    ∀ b c, (l.foldl ocrStep (b, c)).2 = c + ocrCalls l := by
  induction l with
  | nil => intro b c; simp [ocrCalls]
  | cons r l ih =>
    intro b c
    cases r with
    | renderFail => simp [ocrStep, ih, ocrCalls]
    | callFail => simp [ocrStep, ih, ocrCalls]; omega
    | content t =>
      cases t with
      | none => simp [ocrStep, ih, ocrCalls]; omega
      | some s =>
        by_cases hs : s = ""
        · simp [ocrStep, hs, ih, ocrCalls]; omega
        · simp [ocrStep, if_neg hs, ih, ocrCalls]; omega

theorem ocrCalls_of_no_renderFail (l : List OcrPageOutcome)
    (h : ∀ r ∈ l, r ≠ OcrPageOutcome.renderFail) : ocrCalls l = l.length := by
  induction l with
  | nil => rfl
  | cons r l ih =>
    have hr := h r (by simp)
    have hrest : ∀ x ∈ l, x ≠ OcrPageOutcome.renderFail :=
      fun x hx => h x (by simp [hx])
    cases r with
    | renderFail => exact absurd rfl hr
    | callFail => simp [ocrCalls, ih hrest]
    | content t => simp [ocrCalls, ih hrest]

/-- On the OCR path the source's result is the stripped concatenation of the
text-layer residue and the pages' ascending-order contributions. -/
theorem pdf_extract_ocr_path (d : PdfDoc) (hf : d.fitz_ok = true)
    (he : pystrip (textLayer d) = "") :
    pdf_extract d =
      (pystrip (joinAll (d.ocrPages.map segText)), ocrCalls d.ocrPages) := by
  unfold pdf_extract
  rw [if_pos he, if_pos hf]
  have h1 := foldl_ocrStep_text d.ocrPages (textLayer d) 0
  have h2 := foldl_ocrStep_count d.ocrPages (textLayer d) 0
  simp only [h1, h2, Nat.zero_add]
  rw [pystrip_append_left _ _ he]

/-! ## Spec-modelled parallel OCR orchestration

`src/` holds only the sequential OCR loop; the spec describes the
repository's parallel variant (ParallelOCROrchestrator): one task per page
index on a worker pool, "each task only reads its own page and writes its own
PageResult slot", reassembly strictly by page index irrespective of
completion order. -/

/-- Modelled from the spec: the completion of page `i`'s OCR task writes
page `i`'s outcome into slot `i`, leaving every other slot unchanged. -/
def writeSlot (pages : List OcrPageOutcome)
    (slots : Nat → Option OcrPageOutcome) (i : Nat) :
    Nat → Option OcrPageOutcome :=
  fun j => if j = i then pages.get? i else slots j

/-- Modelled from the spec: run the page tasks to completion in the order
given by `order` (a permutation of the page indices), starting from empty
slots. -/
def completeTasks (pages : List OcrPageOutcome) (order : List Nat) :
    Nat → Option OcrPageOutcome :=
  order.foldl (writeSlot pages) (fun _ => none)

/-- Modelled from the spec: reassemble the filled slots strictly by ascending
page index and concatenate each page's contribution. -/
def assembleSlots (n : Nat) (slots : Nat → Option OcrPageOutcome) : String :=
  joinAll ((List.range n).map (fun i =>
    match slots i with
    | some r => segText r
    | none => ""))

theorem foldl_writeSlot (pages : List OcrPageOutcome) (order : List Nat) :
    ∀ (init : Nat → Option OcrPageOutcome) (j : Nat),
      (order.foldl (writeSlot pages) init) j =
        if j ∈ order then pages.get? j else init j := by
  induction order with
  | nil => intro init j; simp
  | cons i rest ih =>
    intro init j
    rw [List.foldl_cons, ih]
    by_cases hj : j ∈ rest
    · simp [hj]
    · by_cases hji : j = i
      · subst hji
        simp [hj, writeSlot]
      · simp [hj, hji, writeSlot]

theorem range_map_match (l : List OcrPageOutcome) :
    (List.range l.length).map (fun i =>
        match l.get? i with
        | some r => segText r
        | none => "") = l.map segText := by
  induction l with
  | nil => simp
  | cons a l ih =>
    rw [List.length_cons, List.range_succ_eq_map, List.map_cons, List.map_map]
    have h0 : (match (a :: l).get? 0 with
        | some r => segText r
        | none => "") = segText a := rfl
    rw [h0]
    congr 1

/-- Any page with no usable OCR text (failure, `None`, or empty content)
contributes nothing to the output: no text and no separating line break. -/
theorem ocr_middle_page_empty (d : PdfDoc) (pre post : List OcrPageOutcome)
    (r : OcrPageOutcome) (hf : d.fitz_ok = true)
    (he : pystrip (textLayer d) = "")
    (hp : d.ocrPages = pre ++ r :: post) (hr : segText r = "") :
    pdf_to_text_or_ocr d =
      pystrip (joinAll (pre.map segText) ++ joinAll (post.map segText)) := by
  show (pdf_extract d).1 = _
  rw [pdf_extract_ocr_path d hf he]
  show pystrip (joinAll (d.ocrPages.map segText)) = _
  rw [hp, List.map_append, List.map_cons, joinAll_append, joinAll_cons, hr,
    empty_sapp]

/-! ## Concrete inputs for witnesses and counterexamples -/

/-- A document whose single page has the native text "hello". -/
def docA : PdfDoc :=
  { open_ok := true, pages := [Except.ok (some "hello")],
    fitz_ok := true, ocrPages := [OcrPageOutcome.callFail] }

/-- A document pdfplumber cannot open, with two OCR pages. -/
def docB : PdfDoc :=
  { open_ok := false, pages := [],
    fitz_ok := true,
    ocrPages := [OcrPageOutcome.content (some "x"), OcrPageOutcome.callFail] }

/-- A three-page scanned document whose pages OCR to "A", "B", "C". -/
def docC : PdfDoc :=
  { open_ok := true, pages := [Except.ok none],
    fitz_ok := true,
    ocrPages := [OcrPageOutcome.content (some "A"),
      OcrPageOutcome.content (some "B"), OcrPageOutcome.content (some "C")] }

/-- A three-page scanned document whose middle page's OCR call fails. -/
def exDoc3 : PdfDoc :=
  { open_ok := true, pages := [],
    fitz_ok := true,
    ocrPages := [OcrPageOutcome.content (some "A"), OcrPageOutcome.callFail,
      OcrPageOutcome.content (some "C")] }

/-- A two-page scanned document whose first page fails to render. -/
def docE : PdfDoc :=
  { open_ok := false, pages := [],
    fitz_ok := true,
    ocrPages := [OcrPageOutcome.renderFail, OcrPageOutcome.content (some "B")] }

/-- A document neither pdfplumber nor PyMuPDF can open. -/
def docF : PdfDoc :=
  { open_ok := false, pages := [], fitz_ok := false, ocrPages := [] }

/-- An answer object for the parse-success witnesses. -/
def jsonAns : Json := Json.obj [("candidato", Json.bool true)]

/-- A concrete `json.loads` behavior: "ans" parses to `jsonAns`, "[2]" to a
JSON array, "7" to a bare number, everything else raises. -/
def parseFn : String → Option Json :=
  fun s =>
    if s = "ans" then some jsonAns
    else if s = "[2]" then some (Json.arr [Json.num 2])
    else if s = "7" then some (Json.num 7)
    else none

/-- A request whose classifier answer parses. -/
def envP : Env :=
  { readExc := none, doc := docF, classifyCall := Except.ok "ans",
    jsonParse := parseFn }

/-- A request whose classifier answer does not parse. -/
def envQ : Env :=
  { readExc := none, doc := docF,
    classifyCall := Except.ok "Sorry, not JSON", jsonParse := parseFn }

/-- A request whose classification-model call raises. -/
def envR : Env :=
  { readExc := none, doc := docF, classifyCall := Except.error (),
    jsonParse := parseFn }

/-- A request that raises while saving the upload, after the temporary file
has been created. -/
def envS : Env :=
  { readExc := some "disk full", doc := docF,
    classifyCall := Except.error (), jsonParse := parseFn }

/-- A request whose classifier answer parses to a JSON array. -/
def envT1 : Env :=
  { readExc := none, doc := docF, classifyCall := Except.ok "[2]",
    jsonParse := parseFn }

/-- A request whose classifier answer parses to a bare JSON number. -/
def envT2 : Env :=
  { readExc := none, doc := docF, classifyCall := Except.ok "7",
    jsonParse := parseFn }

/-! ## Claims -/

/-- C1: for every document, the native text layer is extracted first; when its
stripped form is non-empty it is returned as-is and no OCR model call is made;
only when it is empty does the OCR loop run, making one model call per page
(every page that does not fail before the call, hence every page when none
fails to render). -/
theorem claim1_text_layer_short_circuits_ocr (d : PdfDoc) :
    (pystrip (textLayer d) ≠ "" →
      pdf_to_text_or_ocr d = pystrip (textLayer d) ∧ (pdf_extract d).2 = 0)
    ∧ (pystrip (textLayer d) = "" → d.fitz_ok = true →
      (pdf_extract d).2 = ocrCalls d.ocrPages ∧
      ((∀ r ∈ d.ocrPages, r ≠ OcrPageOutcome.renderFail) →
        (pdf_extract d).2 = d.ocrPages.length)) := by
  constructor
  · intro he
    unfold pdf_to_text_or_ocr pdf_extract
    rw [if_neg he]
    exact ⟨rfl, rfl⟩
  · intro he hf
    rw [pdf_extract_ocr_path d hf he]
    exact ⟨rfl, fun h => ocrCalls_of_no_renderFail d.ocrPages h⟩

theorem claim1_witness :
    (pdf_to_text_or_ocr docA = "hello" ∧ (pdf_extract docA).2 = 0) ∧
    (pdf_extract docB).2 = 2 := by
  refine ⟨(claim1_text_layer_short_circuits_ocr docA).1 (by decide), ?_⟩
  exact ((claim1_text_layer_short_circuits_ocr docB).2 (by decide) rfl).2
    (by decide)

/-- C2: on the OCR path, the final text is the stripped concatenation of the
per-page texts in ascending page index; for the spec-modelled parallel
orchestrator, reassembling the slots written by the page tasks under any
completion order (any permutation of the page indices) yields exactly that
same ascending-order concatenation. -/
theorem claim2_reassembly_order_independent (d : PdfDoc) (order : List Nat)
    (hf : d.fitz_ok = true) (he : pystrip (textLayer d) = "")
    (hp : order.Perm (List.range d.ocrPages.length)) :
    assembleSlots d.ocrPages.length (completeTasks d.ocrPages order)
        = joinAll (d.ocrPages.map segText)
    ∧ pdf_to_text_or_ocr d = pystrip (joinAll (d.ocrPages.map segText)) := by
  constructor
  · unfold assembleSlots
    have hmap : (List.range d.ocrPages.length).map (fun i =>
        match completeTasks d.ocrPages order i with
        | some r => segText r
        | none => "") = (List.range d.ocrPages.length).map (fun i =>
        match d.ocrPages.get? i with
        | some r => segText r
        | none => "") := by
      apply List.map_congr_left
      intro i hi
      have : completeTasks d.ocrPages order i = d.ocrPages.get? i := by
        unfold completeTasks
        rw [foldl_writeSlot]
        rw [if_pos (hp.mem_iff.mpr hi)]
      rw [this]
    rw [hmap, range_map_match]
  · show (pdf_extract d).1 = _
    rw [pdf_extract_ocr_path d hf he]

theorem claim2_witness :
    assembleSlots 3 (completeTasks docC.ocrPages [2, 0, 1]) = "A\nB\nC\n" ∧
    pdf_to_text_or_ocr docC = "A\nB\nC" := by
  have h := claim2_reassembly_order_independent docC [2, 0, 1] rfl (by decide)
    (by decide)
  exact ⟨h.1.trans (by decide), h.2.trans (by decide)⟩

/-- Spec's reassembly rule, stated from the spec's words (for comparison with
the source): every page contributes its `PageResult.text` — a failed or
textless page contributing the empty string — and the contributions are
joined by a line break, so a failed page leaves an empty line at its
position. -/
def specPageConcat (pages : List OcrPageOutcome) : String :=
  String.intercalate "\n" (pages.map (fun r =>
    match r with
    | .content (some t) => t
    | _ => ""))

/-- C3 counterexample: a three-page document whose middle page's OCR call
fails.  The source yields "A\nC" — the failed page contributes nothing, not
an empty line — while the claim's reassembly (empty segment joined by line
breaks) yields "A\n\nC". -/
theorem claim3_failed_page_no_empty_line_cex :
    pdf_to_text_or_ocr exDoc3 = "A\nC" ∧
    pystrip (specPageConcat exDoc3.ocrPages) = "A\n\nC" ∧
    pdf_to_text_or_ocr exDoc3 ≠ pystrip (specPageConcat exDoc3.ocrPages) := by
  refine ⟨by decide, by decide, by decide⟩

/-- C3 amended: on the OCR path, a page whose OCR call fails or yields no
text contributes nothing — neither text nor a line break — and the
surrounding pages' texts are concatenated in their original ascending order
with no page dropped. -/
theorem claim3_failed_page_contributes_nothing (d : PdfDoc)
    (pre post : List OcrPageOutcome) (r : OcrPageOutcome)
    (hf : d.fitz_ok = true) (he : pystrip (textLayer d) = "")
    (hp : d.ocrPages = pre ++ r :: post) (hr : segText r = "") :
    pdf_to_text_or_ocr d =
      pystrip (joinAll (pre.map segText) ++ joinAll (post.map segText)) :=
  ocr_middle_page_empty d pre post r hf he hp hr

theorem claim3_failed_page_contributes_nothing_witness :
    pdf_to_text_or_ocr exDoc3 =
      pystrip (joinAll ([OcrPageOutcome.content (some "A")].map segText) ++
        joinAll ([OcrPageOutcome.content (some "C")].map segText)) :=
  claim3_failed_page_contributes_nothing exDoc3
    [OcrPageOutcome.content (some "A")] [OcrPageOutcome.content (some "C")]
    OcrPageOutcome.callFail rfl (by decide) rfl rfl

/-- C4: for every raw string answer the classifier returns, the endpoint
returns the parsed JSON value when `json.loads` succeeds, and the fallback
envelope `{"raw_response": <the original string>}` (with success status, not
an error) when it fails. -/
theorem claim4_parse_or_fallback (env : Env) (s : String)
    (hr : env.readExc = none) (hc : env.classifyCall = Except.ok s) :
    (∀ j, env.jsonParse s = some j →
      (procesar_cv env).1 = { body := j, status := 200 })
    ∧ (env.jsonParse s = none →
      (procesar_cv env).1 =
        { body := Json.obj [("raw_response", Json.str s)], status := 200 }) := by
  constructor
  · intro j hj
    simp [procesar_cv, hr, hc, get_json_from_openai, hj]
  · intro hn
    simp [procesar_cv, hr, hc, get_json_from_openai, hn]

theorem claim4_witness :
    (procesar_cv envP).1 = { body := jsonAns, status := 200 } ∧
    (procesar_cv envQ).1 =
      { body := Json.obj [("raw_response", Json.str "Sorry, not JSON")],
        status := 200 } := by
  constructor
  · exact (claim4_parse_or_fallback envP "ans" rfl rfl).1 jsonAns rfl
  · exact (claim4_parse_or_fallback envQ "Sorry, not JSON" rfl rfl).2 rfl

/-- C5 counterexample: when the classification call raises, the body the
caller receives is `{"error": "openai_failed", "raw_response": ""}`, which is
not the claim's `{"error": "model_call_failed"}`. -/
theorem claim5_error_value_cex :
    (procesar_cv envR).1.body = openaiErrObj ∧
    (procesar_cv envR).1.body ≠
      Json.obj [("error", Json.str "model_call_failed")] := by
  constructor
  · rfl
  · intro h
    rw [show (procesar_cv envR).1.body = openaiErrObj from rfl] at h
    simp [openaiErrObj] at h

/-- C5 amended: when the classification-model call fails, no exception
escapes the pipeline and the final result delivered to the caller is exactly
the error object `{"error": "openai_failed", "raw_response": ""}` (served
with the success status). -/
theorem claim5_model_failure_error_object (env : Env)
    (hr : env.readExc = none) (hc : env.classifyCall = Except.error ()) :
    (procesar_cv env).1.body = openaiErrObj ∧
    (procesar_cv env).1.status = 200 := by
  simp [procesar_cv, hr, hc, get_json_from_openai]

theorem claim5_model_failure_error_object_witness :
    (procesar_cv envR).1.body = openaiErrObj ∧
    (procesar_cv envR).1.status = 200 :=
  claim5_model_failure_error_object envR rfl rfl

/-- C6: evaluation at the failing input.  A request that raises while saving
the upload (after the temporary file is created) is answered by the
top-level handler with a 500 error body, but the temporary file is never
removed (`os.remove`, line 175, is unreachable on this path) — the code
contradicts the claim that the transient copy is deleted on every error
path. -/
theorem claim6_temp_file_leak_on_read_error :
    procesar_cv envS =
      ({ body := Json.obj [("error", Json.str "disk full")], status := 500 },
        true) := rfl

/-- C7: the extraction function is total (every collaborator exception is
caught and modelled as a value), and when the document cannot be opened at
all — both pdfplumber and PyMuPDF fail to open it — the result is the empty
string. -/
theorem claim7_unopenable_yields_empty (d : PdfDoc)
    (h1 : d.open_ok = false) (h2 : d.fitz_ok = false) :
    pdf_to_text_or_ocr d = "" := by
  have ht : textLayer d = "" := by simp [textLayer, h1]
  unfold pdf_to_text_or_ocr pdf_extract
  rw [ht]
  simp [h2, pystrip, pystripL]

theorem claim7_unopenable_yields_empty_witness :
    pdf_to_text_or_ocr docF = "" :=
  claim7_unopenable_yields_empty docF rfl rfl

/-- C8: on the OCR path, a page that fails — whether before the model call
(render error) or at the call (network error, malformed response) — never
propagates an exception (the function still returns a value computed from
the other pages) and never prevents the remaining pages from being
processed: the failed page contributes empty text and every later page's
contribution still appears. -/
theorem claim8_page_failure_isolated (d : PdfDoc)
    (pre post : List OcrPageOutcome) (hf : d.fitz_ok = true)
    (he : pystrip (textLayer d) = "")
    (hp : d.ocrPages = pre ++ OcrPageOutcome.callFail :: post ∨
      d.ocrPages = pre ++ OcrPageOutcome.renderFail :: post) :
    pdf_to_text_or_ocr d =
      pystrip (joinAll (pre.map segText) ++ joinAll (post.map segText)) := by
  rcases hp with hp | hp
  · exact ocr_middle_page_empty d pre post OcrPageOutcome.callFail hf he hp rfl
  · exact ocr_middle_page_empty d pre post OcrPageOutcome.renderFail hf he hp
      rfl

theorem claim8_page_failure_isolated_witness :
    pdf_to_text_or_ocr docE =
      pystrip (joinAll (([] : List OcrPageOutcome).map segText) ++
        joinAll ([OcrPageOutcome.content (some "B")].map segText)) ∧
    pdf_to_text_or_ocr docE = "B" := by
  constructor
  · exact claim8_page_failure_isolated docE []
      [OcrPageOutcome.content (some "B")] rfl (by decide) (Or.inr rfl)
  · decide

/-- C9: the endpoint performs no schema validation on a parsed answer: any
string the JSON parser accepts — whatever value it denotes, an array, a bare
number, an object without the expected fields — is returned to the caller
unchanged with the success status, never wrapped in the fallback envelope. -/
theorem claim9_no_schema_validation (env : Env) (s : String) (j : Json)
    (hr : env.readExc = none) (hc : env.classifyCall = Except.ok s)
    (hp : env.jsonParse s = some j) :
    (procesar_cv env).1.body = j ∧ (procesar_cv env).1.status = 200 := by
  simp [procesar_cv, hr, hc, get_json_from_openai, hp]

theorem claim9_no_schema_validation_witness :
    ((procesar_cv envT1).1.body = Json.arr [Json.num 2] ∧
      (procesar_cv envT1).1.status = 200) ∧
    ((procesar_cv envT2).1.body = Json.num 7 ∧
      (procesar_cv envT2).1.status = 200) :=
  ⟨claim9_no_schema_validation envT1 "[2]" (Json.arr [Json.num 2]) rfl rfl rfl,
    claim9_no_schema_validation envT2 "7" (Json.num 7) rfl rfl rfl⟩

/-- C10: the endpoint answers with status 500 exactly when an exception
escapes to the top-level handler (a failure while saving the upload); in
particular a classification-model failure is answered with the success
status 200, not an error status. -/
theorem claim10_status_codes (env : Env) :
    ((procesar_cv env).1.status = 500 ↔ env.readExc ≠ none)
    ∧ (env.readExc = none → env.classifyCall = Except.error () →
      (procesar_cv env).1.status = 200) := by
  have h200 : env.readExc = none → (procesar_cv env).1.status = 200 := by
    intro hre
    cases hc : env.classifyCall with
    | ok s =>
      cases hpj : env.jsonParse s with
      | some j => simp [procesar_cv, hre, hc, get_json_from_openai, hpj]
      | none => simp [procesar_cv, hre, hc, get_json_from_openai, hpj]
    | error u => simp [procesar_cv, hre, hc, get_json_from_openai]
  constructor
  · constructor
    · intro h5
      cases hre : env.readExc with
      | none =>
        rw [h200 hre] at h5
        exact absurd h5 (by decide)
      | some e => simp
    · intro _
      cases hre : env.readExc with
      | none => rename_i hne; exact absurd hre hne
      | some e => simp [procesar_cv, hre]
  · intro hre _
    exact h200 hre

theorem claim10_status_codes_witness :
    (procesar_cv envR).1.status = 200 ∧ (procesar_cv envS).1.status = 500 :=
  ⟨(claim10_status_codes envR).2 rfl rfl,
    (claim10_status_codes envS).1.mpr (by simp [envS])⟩
